import Mathlib

/-!
Shallow embedding of the audio-over-UDP streaming pipeline
(`packet_data.rs`, `packet_sync.rs`, `rate.rs`, `timesync.rs`,
`bin/udp_reciever.rs`, `bin/udp_sender.rs`), followed by theorems
settling the spec claims about it.

Conventions:
- Machine bytes and machine integers are `Nat`; where 64-bit wraparound
  matters it is written explicitly as `% 2 ^ 64`.
- Byte buffers (`&[u8]`, `Vec<u8>`) are `List Nat`.
- `f64` arithmetic of the time-sync estimator and the rolling-rate reader
  is modelled with exact rationals (`ℚ`); every claim instance evaluated
  here stays within the range where `f64` arithmetic is itself exact.
- Fallible Rust functions returning `Result` become `Except`.
-/

/-! ## Data model (`packet.rs` compat types, as used by `packet_data.rs`) -/

/-- Sample formats carried in the wire header (`SampleFormat`).  The codec in
`packet_data.rs` distinguishes `F32`, `I16`, `U16`, `U32`; every other
variant encodes as code 0. -/
inductive SampleFormat where
  | F32
  | I16
  | U16
  | U32
  | Unknown
deriving DecidableEq, Repr

/-- `SampleRate(pub u32)`: sample rate in hertz. -/
structure SampleRate where
  hz : Nat
deriving DecidableEq, Repr

/-- `Meta`: channels, sample rate, sample format (`packet_data.rs`). -/
structure Meta where
  channels : Nat
  sample_rate : SampleRate
  sample_format : SampleFormat
deriving DecidableEq, Repr

/-- `Decoded`: result of `decode_packet` (`packet_data.rs`). -/
structure Decoded where
  seq : Nat
  timestamp_ms : Nat
  meta : Meta
  payload : List Nat
deriving DecidableEq, Repr

/-- `DataPacketError` (`packet_data.rs`). -/
inductive DataPacketError where
  | TooShort
  | BadMagic
  | BadVersion
  | LengthMismatch
deriving DecidableEq, Repr

/-- Modelled from the spec: `DATA_PACKET_MAGIC` is declared in a `packet.rs`
revision that is not under `src/` (only its users are); per the spec, encoded
data frames begin with magic `0x53` (ASCII `S`). -/
def DATA_PACKET_MAGIC : Nat := 0x53

/-- `PACKET_VERSION` (`packet_data.rs`): current data-frame version. -/
def PACKET_VERSION : Nat := 2

/-- `HEADER_LEN` (`packet_data.rs`): 24-byte data-frame header. -/
def HEADER_LEN : Nat := 2 + 2 + 1 + 1 + 1 + 1 + 8 + 8

/-! ## Big-endian byte helpers (`u16::to_be_bytes`, `u64::to_be_bytes`,
`u16::from_be_bytes`, `u64::from_be_bytes`) -/

/-- `u16::to_be_bytes`: two big-endian bytes of a 16-bit value. -/
def toBE2 (n : Nat) : List Nat :=
  [n / 256 % 256, n % 256]

/-- `u64::to_be_bytes`: eight big-endian bytes of a 64-bit value. -/
def toBE8 (n : Nat) : List Nat :=
  [n / 2 ^ 56 % 256, n / 2 ^ 48 % 256, n / 2 ^ 40 % 256, n / 2 ^ 32 % 256,
   n / 2 ^ 24 % 256, n / 2 ^ 16 % 256, n / 2 ^ 8 % 256, n % 256]

/-- `u16::from_be_bytes` on two bytes. -/
def fromBE2 (b0 b1 : Nat) : Nat :=
  b0 * 256 + b1

/-- `u64::from_be_bytes` on eight bytes. -/
def fromBE8 (b0 b1 b2 b3 b4 b5 b6 b7 : Nat) : Nat :=
  b0 * 2 ^ 56 + b1 * 2 ^ 48 + b2 * 2 ^ 40 + b3 * 2 ^ 32 +
  b4 * 2 ^ 24 + b5 * 2 ^ 16 + b6 * 2 ^ 8 + b7

/-- `u64::from_be_bytes` on bytes `data[i..i+8]` of a buffer. -/
def fromBE8at (data : List Nat) (i : Nat) : Nat :=
  fromBE8 (data.getD i 0) (data.getD (i + 1) 0) (data.getD (i + 2) 0)
    (data.getD (i + 3) 0) (data.getD (i + 4) 0) (data.getD (i + 5) 0)
    (data.getD (i + 6) 0) (data.getD (i + 7) 0)

/-! ## `SampleRateCode` (`packet_data.rs`) -/

/-- `SampleRateCode`: encoded sample-rate choices used on the wire. -/
inductive SampleRateCode where
  | Unknown
  | Hz8000
  | Hz16000
  | Hz22050
  | Hz24000
  | Hz32000
  | Hz44100
  | Hz48000
  | Hz88200
  | Hz96000
  | Hz176400
  | Hz192000
deriving DecidableEq, Repr

namespace SampleRateCode

/-- `SampleRateCode::from_hz`. -/
def from_hz (hz : Nat) : SampleRateCode :=
  if hz = 8000 then .Hz8000
  else if hz = 16000 then .Hz16000
  else if hz = 22050 then .Hz22050
  else if hz = 24000 then .Hz24000
  else if hz = 32000 then .Hz32000
  else if hz = 44100 then .Hz44100
  else if hz = 48000 then .Hz48000
  else if hz = 88200 then .Hz88200
  else if hz = 96000 then .Hz96000
  else if hz = 176400 then .Hz176400
  else if hz = 192000 then .Hz192000
  else .Unknown

/-- `SampleRateCode::to_hz`. -/
def to_hz : SampleRateCode → Nat
  | .Unknown => 0
  | .Hz8000 => 8000
  | .Hz16000 => 16000
  | .Hz22050 => 22050
  | .Hz24000 => 24000
  | .Hz32000 => 32000
  | .Hz44100 => 44100
  | .Hz48000 => 48000
  | .Hz88200 => 88200
  | .Hz96000 => 96000
  | .Hz176400 => 176400
  | .Hz192000 => 192000

/-- `SampleRateCode::from_code`. -/
def from_code (code : Nat) : SampleRateCode :=
  if code = 1 then .Hz8000
  else if code = 2 then .Hz16000
  else if code = 3 then .Hz22050
  else if code = 4 then .Hz24000
  else if code = 5 then .Hz32000
  else if code = 6 then .Hz44100
  else if code = 7 then .Hz48000
  else if code = 8 then .Hz88200
  else if code = 9 then .Hz96000
  else if code = 10 then .Hz176400
  else if code = 11 then .Hz192000
  else .Unknown

/-- `SampleRateCode::code` (the `repr(u8)` discriminant). -/
def code : SampleRateCode → Nat
  | .Unknown => 0
  | .Hz8000 => 1
  | .Hz16000 => 2
  | .Hz22050 => 3
  | .Hz24000 => 4
  | .Hz32000 => 5
  | .Hz44100 => 6
  | .Hz48000 => 7
  | .Hz88200 => 8
  | .Hz96000 => 9
  | .Hz176400 => 10
  | .Hz192000 => 11

end SampleRateCode

/-- Wire code of a sample format (the `match` inside `encode_packet`):
`F32`=1, `I16`=2, `U16`=3, `U32`=4, anything else 0. -/
def sampleFormatCode : SampleFormat → Nat
  | .F32 => 1
  | .I16 => 2
  | .U16 => 3
  | .U32 => 4
  | .Unknown => 0

/-- Sample format decoded from a wire code (the `match` inside
`decode_packet`): unknown codes default to `F32`. -/
def sampleFormatFromCode (code : Nat) : SampleFormat :=
  if code = 1 then .F32
  else if code = 2 then .I16
  else if code = 3 then .U16
  else if code = 4 then .U32
  else .F32

/-- Decidable equality of `Except` results, for concrete evaluation. -/
instance exceptDecEq {ε α : Type} [DecidableEq ε] [DecidableEq α] :
    DecidableEq (Except ε α)
  | .error e, .error f =>
    if h : e = f then .isTrue (by rw [h])
    else .isFalse (by intro hh; cases hh; exact h rfl)
  | .error _, .ok _ => .isFalse (by intro h; cases h)
  | .ok _, .error _ => .isFalse (by intro h; cases h)
  | .ok a, .ok b =>
    if h : a = b then .isTrue (by rw [h])
    else .isFalse (by intro hh; cases hh; exact h rfl)

/-! ## Data-frame codec (`packet_data.rs`) -/

/-- `encode_packet` (`packet_data.rs`): sequence number, payload, meta and
timestamp into a frame buffer; declared payload length is clamped to
`u16::MAX`. -/
def encode_packet (seq : Nat) (payload : List Nat) (meta : Meta)
    (timestamp_ms : Nat) : List Nat :=
  let len := min payload.length 65535
  [DATA_PACKET_MAGIC, PACKET_VERSION] ++ toBE2 len ++
    [meta.channels, (SampleRateCode.from_hz meta.sample_rate.hz).code,
      sampleFormatCode meta.sample_format, 0] ++
    toBE8 seq ++ toBE8 timestamp_ms ++ payload

/-- `decode_packet` (`packet_data.rs`): header validation, then borrowed
payload slice `data[24 .. 24 + declared_len]`. -/
def decode_packet (data : List Nat) : Except DataPacketError Decoded :=
  if data.length < HEADER_LEN then .error .TooShort
  else if data.getD 0 0 ≠ DATA_PACKET_MAGIC then .error .BadMagic
  else if data.getD 1 0 ≠ PACKET_VERSION then .error .BadVersion
  else
    let payload_len := fromBE2 (data.getD 2 0) (data.getD 3 0)
    let channels := data.getD 4 0
    let sample_rate_code := data.getD 5 0
    let sample_format_code := data.getD 6 0
    let seq := fromBE8at data 8
    let timestamp_ms := fromBE8at data 16
    if data.length < HEADER_LEN + payload_len then .error .LengthMismatch
    else
      .ok { seq := seq
            timestamp_ms := timestamp_ms
            meta := { channels := channels
                      sample_rate :=
                        ⟨(SampleRateCode.from_code sample_rate_code).to_hz⟩
                      sample_format := sampleFormatFromCode sample_format_code }
            payload := (data.drop HEADER_LEN).take payload_len }

/-! ## Sync-frame codec (`packet_sync.rs`) -/

/-- `SyncMessage` (`packet_sync.rs`): ping/pong control frames. -/
inductive SyncMessage where
  | Ping (t0_ms : Nat)
  | Pong (t0_ms t1_ms t2_ms : Nat)
deriving DecidableEq, Repr

/-- `SyncDecodeError` (`packet_sync.rs`). -/
inductive SyncDecodeError where
  | TooShort
  | BadMagic
  | BadVersion
  | UnknownType
deriving DecidableEq, Repr

/-- Modelled from the spec: `SYNC_PACKET_MAGIC` is declared in a `packet.rs`
revision that is not under `src/` (only its users are); per the spec, sync
frames begin with magic `0x54` (ASCII `T`). -/
def SYNC_PACKET_MAGIC : Nat := 0x54

/-- `SYNC_VERSION` (`packet_sync.rs`). -/
def SYNC_VERSION : Nat := 1

/-- `TYPE_PING` (`packet_sync.rs`). -/
def TYPE_PING : Nat := 1

/-- `TYPE_PONG` (`packet_sync.rs`). -/
def TYPE_PONG : Nat := 2

/-- `encode_sync` (`packet_sync.rs`). -/
def encode_sync : SyncMessage → List Nat
  | .Ping t0_ms => [SYNC_PACKET_MAGIC, SYNC_VERSION, TYPE_PING] ++ toBE8 t0_ms
  | .Pong t0_ms t1_ms t2_ms =>
      [SYNC_PACKET_MAGIC, SYNC_VERSION, TYPE_PONG] ++
        toBE8 t0_ms ++ toBE8 t1_ms ++ toBE8 t2_ms

/-- `decode_sync` (`packet_sync.rs`): decodes only sync messages. -/
def decode_sync (data : List Nat) : Except SyncDecodeError SyncMessage :=
  if data.length = 0 then .error .TooShort
  else if data.getD 0 0 ≠ SYNC_PACKET_MAGIC then .error .BadMagic
  else if data.length < 2 then .error .TooShort
  else if data.getD 1 0 ≠ SYNC_VERSION then .error .BadVersion
  else if data.length < 3 then .error .TooShort
  else if data.getD 2 0 = TYPE_PING then
    if data.length < 3 + 8 then .error .TooShort
    else .ok (.Ping (fromBE8at data 3))
  else if data.getD 2 0 = TYPE_PONG then
    if data.length < 3 + 8 + 8 + 8 then .error .TooShort
    else .ok (.Pong (fromBE8at data 3) (fromBE8at data 11) (fromBE8at data 19))
  else .error .UnknownType

/-! ## Decode multiplexer -/

/-- `Message`: a decoded data or sync frame.  Modelled from the spec: the
`Message` enum lives in the `packet.rs` revision that is not under `src/`
(only callers in `udp_sender.rs` and tests in `packet_sync.rs` are). -/
inductive Message where
  | Data (d : Decoded)
  | Sync (m : SyncMessage)
deriving DecidableEq, Repr

/-- `MessageError`: error taxonomy of the decode multiplexer.  Modelled from
the spec: `UnknownMagic` on unrecognized input, otherwise the dispatched
decoder's own error. -/
inductive MessageError where
  | UnknownMagic
  | DataErr (e : DataPacketError)
  | SyncErr (e : SyncDecodeError)
deriving DecidableEq, Repr

/-- Modelled from the spec: `decode_message` (the multiplexer in the
`packet.rs` revision not under `src/`) fails with `UnknownMagic` on empty
input or a first byte outside `{0x53, 0x54}`; a first byte `0x53` dispatches
to the data-frame decoder and `0x54` to the sync-frame decoder, each keeping
its own error taxonomy. -/
def decode_message (data : List Nat) : Except MessageError Message :=
  match data with
  | [] => .error .UnknownMagic
  | b :: _ =>
    if b = DATA_PACKET_MAGIC then
      match decode_packet data with
      | .ok d => .ok (.Data d)
      | .error e => .error (.DataErr e)
    else if b = SYNC_PACKET_MAGIC then
      match decode_sync data with
      | .ok m => .ok (.Sync m)
      | .error e => .error (.SyncErr e)
    else .error .UnknownMagic

/-! ## Receive loop — loss/reorder accounting (`bin/udp_reciever.rs`,
ordered-emit block of `main`) -/

/-- The receive-loop counters touched by the ordered-emit block
(`expected_sequence`, `lost_packets`, `out_of_order_packets`; all `u64`).
The surrounding telemetry (byte totals, rolling rates, latency, time-sync)
does not feed back into this block and is kept out of the state. -/
structure RecvState where
  expected_sequence : Nat
  lost_packets : Nat
  out_of_order_packets : Nat
deriving DecidableEq, Repr

/-- The receiver's initial counters (`udp_reciever.rs`, `main` locals). -/
def initialRecvState : RecvState :=
  { expected_sequence := 0, lost_packets := 0, out_of_order_packets := 0 }

/-- One data packet through the ordered-emit block of the receive loop
(`udp_reciever.rs` lines 129-177).  Returns the updated counters and
`some payload` when the payload is written to the sink, `none` when it is
dropped.  `u64` arithmetic is written with its wraparound. -/
def recvStep (s : RecvState) (received_sequence : Nat) (payload : List Nat) :
    RecvState × Option (List Nat) :=
  if received_sequence = s.expected_sequence then
    ({ s with expected_sequence := (s.expected_sequence + 1) % 2 ^ 64 },
      some payload)
  else if received_sequence > s.expected_sequence then
    let lost_count := received_sequence - s.expected_sequence
    ({ s with
        lost_packets := (s.lost_packets + lost_count) % 2 ^ 64,
        expected_sequence := (received_sequence + 1) % 2 ^ 64 },
      some payload)
  else
    ({ s with
        out_of_order_packets := (s.out_of_order_packets + 1) % 2 ^ 64 },
      none)

/-- Runs the ordered-emit block over a list of arriving `(seq, payload)`
packets, collecting the payloads written to the sink in order. -/
def runRecv (s : RecvState) : List (Nat × List Nat) → RecvState × List (List Nat)
  | [] => (s, [])
  | (seq, p) :: rest =>
    let step := recvStep s seq p
    let tail := runRecv step.1 rest
    (tail.1,
      (match step.2 with
       | some out => [out]
       | none => []) ++ tail.2)

/-! ## Send worker — silence collapsing (`bin/udp_sender.rs`) -/

/-- `bytes_per_sample` (`udp_sender.rs`). -/
def bytes_per_sample : SampleFormat → Nat
  | .F32 => 4
  | .I16 => 2
  | .U16 => 2
  | .U32 => 4
  | .Unknown => 1

/-- Little-endian 16-bit sample view of a byte buffer
(`bytemuck::cast_slice` to `&[i16]` / `&[u16]` on the little-endian
targets the sender runs on). -/
def samplesLE2 : List Nat → List Nat
  | b0 :: b1 :: rest => (b0 + b1 * 2 ^ 8) :: samplesLE2 rest
  | _ => []

/-- Little-endian 32-bit sample view of a byte buffer
(`bytemuck::cast_slice` to `&[f32]` / `&[u32]`). -/
def samplesLE4 : List Nat → List Nat
  | b0 :: b1 :: b2 :: b3 :: rest =>
      (b0 + b1 * 2 ^ 8 + b2 * 2 ^ 16 + b3 * 2 ^ 24) :: samplesLE4 rest
  | _ => []

/-- An `f32` bit pattern compares `== 0.0` exactly when it is `+0.0` or
`-0.0`, i.e. when every bit below the sign bit is clear. -/
def f32BitsIsZero (bits : Nat) : Bool :=
  bits % 2 ^ 31 = 0

/-- `is_silent_chunk` (`udp_sender.rs`): every sample of the chunk is the
neutral value of the format (`f32` `== 0.0`, `i16` `== 0`, `u16` `== 0x8000`,
`u32` `== 0x8000_0000`); misaligned chunks and unknown formats are not
silent. -/
def is_silent_chunk (fmt : SampleFormat) (data : List Nat) : Bool :=
  match fmt with
  | .F32 =>
    if data.length % 4 ≠ 0 then false
    else (samplesLE4 data).all f32BitsIsZero
  | .I16 =>
    if data.length % 2 ≠ 0 then false
    else (samplesLE2 data).all (fun v => v = 0)
  | .U16 =>
    if data.length % 2 ≠ 0 then false
    else (samplesLE2 data).all (fun v => v = 0x8000)
  | .U32 =>
    if data.length % 4 ≠ 0 then false
    else (samplesLE4 data).all (fun v => v = 0x80000000)
  | .Unknown => false

/-- `SendWorker` (`udp_sender.rs`): the fields of the send worker that the
emitted frames depend on.  The telemetry fields (volume meter, rolling
byte/packet rates, stats channel, `last_update_time`, alignment-warning
flag) only feed the stats side channel, never the frames, and are elided. -/
structure SendWorker where
  packet_meta : Meta
  total_bytes_sent : Nat
  sequence_number : Nat
  prev_silent : Bool
deriving DecidableEq, Repr

/-- `SendWorker::process_chunk` (`udp_sender.rs`): decides silence collapse,
encodes one frame with the current sequence number and sends it, then
advances `prev_silent`, the byte total and the (wrapping `u64`) sequence
number.  `ts_ms` stands for the `now_ms()` sample taken at entry; the
returned buffer is the datagram passed to `send_to`. -/
def SendWorker.process_chunk (w : SendWorker) (audio_chunk : List Nat)
    (ts_ms : Nat) : SendWorker × List Nat :=
  let bps := bytes_per_sample w.packet_meta.sample_format
  let aligned := bps == 1 || audio_chunk.length % bps == 0
  let is_silent :=
    aligned && is_silent_chunk w.packet_meta.sample_format audio_chunk
  let payload := if is_silent && w.prev_silent then [] else audio_chunk
  let send_buf := encode_packet w.sequence_number payload w.packet_meta ts_ms
  ({ w with
      prev_silent := is_silent,
      total_bytes_sent := (w.total_bytes_sent + send_buf.length) % 2 ^ 64,
      sequence_number := (w.sequence_number + 1) % 2 ^ 64 },
    send_buf)

/-! ## Rolling rate (`rate.rs`, `RollingRate`) -/

/-- `RollingRate` (`rate.rs`): a window, a FIFO of `(instant, count)`
entries and their running sum.  Instants and the window are exact seconds
(`ℚ`); counts and the sum are `u64`. -/
structure RollingRate where
  window : ℚ
  history : List (ℚ × Nat)
  sum : Nat

/-- `RollingRate::new` (`rate.rs`). -/
def RollingRate.new (window : ℚ) : RollingRate :=
  { window := window, history := [], sum := 0 }

/-- `Instant::duration_since`: saturates to zero when `t` is later than
`now`. -/
def durationSince (now t : ℚ) : ℚ := max (now - t) 0

/-- `u64::saturating_add` (`rate.rs` guards the sum with saturating
arithmetic). -/
def satAdd64 (a b : Nat) : Nat := min (a + b) (2 ^ 64 - 1)

/-- `RollingRate::prune` (`rate.rs`): pop front entries strictly older than
the window, subtracting their counts (saturating) from the sum. -/
def RollingRate.pruneList (window now : ℚ) :
    List (ℚ × Nat) → Nat → List (ℚ × Nat) × Nat
  | [], sum => ([], sum)
  | (t, c) :: rest, sum =>
    if durationSince now t > window then
      RollingRate.pruneList window now rest (sum - c)
    else ((t, c) :: rest, sum)

/-- `RollingRate::prune` applied to the whole state. -/
def RollingRate.prune (r : RollingRate) (now : ℚ) : RollingRate :=
  let p := RollingRate.pruneList r.window now r.history r.sum
  { r with history := p.1, sum := p.2 }

/-- `RollingRate::record` (`rate.rs`). -/
def RollingRate.record (r : RollingRate) (now : ℚ) (count : Nat) :
    RollingRate :=
  RollingRate.prune
    { r with history := r.history ++ [(now, count)],
             sum := satAdd64 r.sum count }
    now

/-- `RollingRate::rate_per_sec` (`rate.rs`): prunes, then reports
`sum / window_seconds` (zero for a zero window).  Returns the value and the
pruned state. -/
def RollingRate.rate_per_sec (r : RollingRate) (now : ℚ) : ℚ × RollingRate :=
  let r := RollingRate.prune r now
  (if r.window = 0 then 0 else (r.sum : ℚ) / r.window, r)

/-! ## Time-sync estimator (`timesync.rs`) -/

/-- `TimeSyncState` (`timesync.rs`): offset, smoothed delay and drift, all
`f64` modelled as exact rationals. -/
structure TimeSyncState where
  offset_ms : ℚ
  delay_ms : ℚ
  drift_ppm : ℚ
deriving DecidableEq, Repr

/-- `TimeSyncState::default()`: all zero. -/
def TimeSyncState.default : TimeSyncState :=
  { offset_ms := 0, delay_ms := 0, drift_ppm := 0 }

/-- `TimeSyncEstimator` (`timesync.rs`). -/
structure TimeSyncEstimator where
  alpha : ℚ
  beta : ℚ
  last_offset_ms : Option ℚ
  last_t3_ms : Option Nat
  state : TimeSyncState

/-- `TimeSyncEstimator::new` (`timesync.rs`). -/
def TimeSyncEstimator.new (alpha beta : ℚ) : TimeSyncEstimator :=
  { alpha := alpha, beta := beta, last_offset_ms := none,
    last_t3_ms := none, state := TimeSyncState.default }

/-- Wrapping `u64` subtraction (`t3_ms - prev_t3` in the drift branch runs
on `u64` values). -/
def wrapSub64 (a b : Nat) : Nat :=
  if b ≤ a then a - b else 2 ^ 64 - (b % 2 ^ 64 - a % 2 ^ 64)

/-- `TimeSyncEstimator::update` (`timesync.rs`): NTP-like four-timestamp
sample; seeds on the first sample, EWMA-blends afterwards, and folds the
offset slope into the drift.  Returns the updated estimator together with
the state it returns (`self.state` after mutation). -/
def TimeSyncEstimator.update (e : TimeSyncEstimator)
    (t0_ms t1_ms t2_ms t3_ms : Nat) : TimeSyncEstimator × TimeSyncState :=
  let t0 : ℚ := t0_ms
  let t1 : ℚ := t1_ms
  let t2 : ℚ := t2_ms
  let t3 : ℚ := t3_ms
  let delay := (t3 - t0) - (t2 - t1)
  let offset := ((t1 - t0) + (t2 - t3)) / 2
  let a := e.alpha
  let st1 :=
    if e.last_offset_ms = none then
      { e.state with offset_ms := offset, delay_ms := max delay 0 }
    else
      { e.state with
          offset_ms := (1 - a) * e.state.offset_ms + a * offset,
          delay_ms := (1 - a) * e.state.delay_ms + a * max delay 0 }
  let st2 :=
    match e.last_offset_ms, e.last_t3_ms with
    | some prev_off, some prev_t3 =>
      let dt : ℚ := wrapSub64 t3_ms prev_t3
      if dt > 0 then
        let doff := offset - prev_off
        let ppm := doff / dt * 1000000
        let b := e.beta
        { st1 with drift_ppm := (1 - b) * st1.drift_ppm + b * ppm }
      else st1
    | _, _ => st1
  let e2 : TimeSyncEstimator :=
    { e with
        last_offset_ms := some offset
        last_t3_ms := some t3_ms
        state := st2 }
  (e2, st2)

/-! ## Helper lemmas -/

/-- Decoding the wire code of a sample-rate choice yields the choice back. -/
theorem from_code_code (c : SampleRateCode) :
    SampleRateCode.from_code c.code = c := by
  cases c <;> rfl

/-- General round-trip shape: decoding an encoded frame always succeeds and
returns the first `min (len payload) 65535` payload bytes, the re-decoded
meta, and the original `u64` sequence number and timestamp. -/
theorem decode_encode_general (seq ts : Nat) (payload : List Nat)
    (meta : Meta) (hseq : seq < 2 ^ 64) (hts : ts < 2 ^ 64) :
    decode_packet (encode_packet seq payload meta ts) =
      .ok ⟨seq, ts,
        ⟨meta.channels,
         ⟨(SampleRateCode.from_hz meta.sample_rate.hz).to_hz⟩,
         sampleFormatFromCode (sampleFormatCode meta.sample_format)⟩,
        payload.take (min payload.length 65535)⟩ := by
  simp only [encode_packet, toBE2, toBE8, List.cons_append,
    List.nil_append]
  simp only [decode_packet, HEADER_LEN, fromBE2, fromBE8at, fromBE8,
    List.getD_cons_zero, List.getD_cons_succ, List.length_cons,
    List.drop_succ_cons, List.drop_zero]
  have hlen2 :
      min payload.length 65535 / 256 % 256 * 256 +
          min payload.length 65535 % 256 =
        min payload.length 65535 := by omega
  rw [hlen2, if_neg (by omega), if_neg (by simp), if_neg (by simp),
    if_neg (by omega), from_code_code]
  congr 1
  refine congrArg₂ (fun a b => Decoded.mk a b _ _) (by omega) (by omega)

/-- Round-trip for payloads within the `u16` length field. -/
theorem decode_encode (seq ts : Nat) (payload : List Nat) (meta : Meta)
    (hseq : seq < 2 ^ 64) (hts : ts < 2 ^ 64)
    (hlen : payload.length ≤ 65535) :
    decode_packet (encode_packet seq payload meta ts) =
      .ok ⟨seq, ts,
        ⟨meta.channels,
         ⟨(SampleRateCode.from_hz meta.sample_rate.hz).to_hz⟩,
         sampleFormatFromCode (sampleFormatCode meta.sample_format)⟩,
        payload⟩ := by
  have h := decode_encode_general seq ts payload meta hseq hts
  rwa [Nat.min_eq_left hlen, List.take_length] at h

/-- Round-trip for oversized payloads: decode returns the first 65535
bytes. -/
theorem decode_encode_oversize (seq ts : Nat) (payload : List Nat)
    (meta : Meta) (hseq : seq < 2 ^ 64) (hts : ts < 2 ^ 64)
    (hbig : 65535 < payload.length) :
    decode_packet (encode_packet seq payload meta ts) =
      .ok ⟨seq, ts,
        ⟨meta.channels,
         ⟨(SampleRateCode.from_hz meta.sample_rate.hz).to_hz⟩,
         sampleFormatFromCode (sampleFormatCode meta.sample_format)⟩,
        payload.take 65535⟩ := by
  have h := decode_encode_general seq ts payload meta hseq hts
  rwa [Nat.min_eq_right (Nat.le_of_lt hbig)] at h

/-- Known formats survive the wire-code round trip. -/
theorem sampleFormatFromCode_code (f : SampleFormat) (h : f ≠ .Unknown) :
    sampleFormatFromCode (sampleFormatCode f) = f := by
  cases f <;> first | rfl | exact absurd rfl h

/-- A chunk that `is_silent_chunk` accepts is sample-aligned, since each
per-format branch rejects misaligned lengths. -/
theorem aligned_of_silent (fmt : SampleFormat) (c : List Nat)
    (h : is_silent_chunk fmt c = true) :
    (bytes_per_sample fmt == 1 || c.length % bytes_per_sample fmt == 0) =
      true := by
  cases fmt <;> simp only [is_silent_chunk, bytes_per_sample] at h ⊢ <;>
    first
      | rfl
      | (split at h
         · exact absurd h (by simp)
         · simp_all)

/-- On a magic/version-valid buffer of at least 24 bytes, `decode_packet`
returns `LengthMismatch` exactly when the declared payload length exceeds
the bytes remaining after the header. -/
theorem decode_length_mismatch_iff (data : List Nat)
    (h24 : 24 ≤ data.length)
    (hm : data.getD 0 0 = DATA_PACKET_MAGIC)
    (hv : data.getD 1 0 = PACKET_VERSION) :
    decode_packet data = .error .LengthMismatch ↔
      data.length - 24 < fromBE2 (data.getD 2 0) (data.getD 3 0) := by
  simp only [List.getD, List.get?_eq_getElem?] at hm hv ⊢
  simp only [decode_packet, HEADER_LEN, List.getD, List.get?_eq_getElem?]
  rw [if_neg (by omega), if_neg (by simp [hm]), if_neg (by simp [hv])]
  split
  · next hlt => simp; omega
  · next hge => simp; omega

/-- Truncating a valid encoded frame below header-plus-declared-length, but
keeping at least the 24-byte header, makes `decode_packet` fail with
`LengthMismatch`. -/
theorem decode_truncated_frame (seq ts : Nat) (payload : List Nat)
    (meta : Meta) (k : Nat) (hlen : payload.length ≤ 65535) (h24 : 24 ≤ k)
    (hk : k < 24 + payload.length) :
    decode_packet ((encode_packet seq payload meta ts).take k) =
      .error .LengthMismatch := by
  have hmin : min payload.length 65535 = payload.length :=
    Nat.min_eq_left hlen
  have hE : encode_packet seq payload meta ts =
      [DATA_PACKET_MAGIC, PACKET_VERSION,
       payload.length / 256 % 256, payload.length % 256,
       meta.channels, (SampleRateCode.from_hz meta.sample_rate.hz).code,
       sampleFormatCode meta.sample_format, 0,
       seq / 2 ^ 56 % 256, seq / 2 ^ 48 % 256, seq / 2 ^ 40 % 256,
       seq / 2 ^ 32 % 256, seq / 2 ^ 24 % 256, seq / 2 ^ 16 % 256,
       seq / 2 ^ 8 % 256, seq % 256,
       ts / 2 ^ 56 % 256, ts / 2 ^ 48 % 256, ts / 2 ^ 40 % 256,
       ts / 2 ^ 32 % 256, ts / 2 ^ 24 % 256, ts / 2 ^ 16 % 256,
       ts / 2 ^ 8 % 256, ts % 256] ++ payload := by
    simp [encode_packet, toBE2, toBE8, hmin]
  rw [hE, List.take_append_eq_append_take,
    List.take_of_length_le (by simpa using h24)]
  simp only [List.length_cons, List.length_nil, List.cons_append,
    List.nil_append]
  simp only [decode_packet, HEADER_LEN, fromBE2,
    List.getD_cons_zero, List.getD_cons_succ, List.length_cons,
    List.length_take]
  rw [if_neg (by omega), if_neg (by simp), if_neg (by simp),
    if_pos (by omega)]

/-! ## Claim theorems -/

/-- Claim C1 (amended): for every `u64` sequence number and timestamp and
every payload of at most 65535 bytes, `decode_packet` of
`encode_packet seq payload meta ts` succeeds and returns the same sequence
number, timestamp and payload; the meta is returned unchanged provided it
is wire-representable, i.e. its sample rate survives the enum-code round
trip (rate 0 or one of the eleven enumerated rates) and its sample format
is one of f32/i16/u16/u32. -/
theorem c1_roundtrip (seq ts : Nat) (payload : List Nat) (meta : Meta)
    (hseq : seq < 2 ^ 64) (hts : ts < 2 ^ 64)
    (hlen : payload.length ≤ 65535)
    (hrate : (SampleRateCode.from_hz meta.sample_rate.hz).to_hz =
      meta.sample_rate.hz)
    (hfmt : meta.sample_format ≠ .Unknown) :
    decode_packet (encode_packet seq payload meta ts) =
      .ok ⟨seq, ts, meta, payload⟩ := by
  rw [decode_encode seq ts payload meta hseq hts hlen]
  obtain ⟨ch, ⟨hz⟩, f⟩ := meta
  simp only at hrate hfmt ⊢
  rw [hrate, sampleFormatFromCode_code f hfmt]

/-- Witness for C1: a concrete representable frame round-trips. -/
theorem c1_roundtrip_witness :
    decode_packet (encode_packet 1 [97, 98, 99] ⟨2, ⟨48000⟩, .F32⟩ 42) =
      .ok ⟨1, 42, ⟨2, ⟨48000⟩, .F32⟩, [97, 98, 99]⟩ :=
  c1_roundtrip 1 42 [97, 98, 99] ⟨2, ⟨48000⟩, .F32⟩ (by decide) (by decide)
    (by decide) (by decide) (by decide)

/-- Counterexample to C1 as stated: a sample rate outside the enumerated
set (44000 Hz) decodes as rate 0, and an unknown sample format decodes as
f32, so the decoded meta differs from the input meta. -/
theorem c1_counterexample :
    decode_packet (encode_packet 1 [97, 98, 99] ⟨1, ⟨44000⟩, .I16⟩ 0) =
        .ok ⟨1, 0, ⟨1, ⟨0⟩, .I16⟩, [97, 98, 99]⟩ ∧
    decode_packet (encode_packet 1 [97, 98, 99] ⟨1, ⟨44000⟩, .I16⟩ 0) ≠
        .ok ⟨1, 0, ⟨1, ⟨44000⟩, .I16⟩, [97, 98, 99]⟩ ∧
    decode_packet (encode_packet 1 [97, 98, 99] ⟨1, ⟨48000⟩, .Unknown⟩ 0) ≠
        .ok ⟨1, 0, ⟨1, ⟨48000⟩, .Unknown⟩, [97, 98, 99]⟩ := by
  refine ⟨by decide, by decide, by decide⟩

/-- Claim C2 (amended): the first data packet observed by the receive loop
contributes its full gap from the initial `expected_sequence = 0` to the
loss counter — a first packet with sequence `s` leaves
`lost_packets = s` and `expected_sequence = (s + 1) mod 2^64`, and its
payload is written to the sink; there is no initial-gap exemption. -/
theorem c2_first_packet (seq : Nat) (payload : List Nat)
    (hseq : seq < 2 ^ 64) :
    (recvStep initialRecvState seq payload).1.lost_packets = seq ∧
    (recvStep initialRecvState seq payload).1.expected_sequence =
      (seq + 1) % 2 ^ 64 ∧
    (recvStep initialRecvState seq payload).2 = some payload := by
  by_cases h0 : seq = 0
  · subst h0
    simp [recvStep, initialRecvState]
  · have hpos : 0 < seq := Nat.pos_of_ne_zero h0
    simp only [recvStep, initialRecvState, if_neg h0, if_pos hpos]
    exact ⟨by omega, trivial, trivial⟩

/-- Witness for C2: a first packet with sequence 5. -/
theorem c2_first_packet_witness :
    (recvStep initialRecvState 5 []).1.lost_packets = 5 ∧
    (recvStep initialRecvState 5 []).1.expected_sequence =
      (5 + 1) % 2 ^ 64 ∧
    (recvStep initialRecvState 5 []).2 = some [] :=
  c2_first_packet 5 [] (by decide)

/-- Counterexample to C2 as stated: a first packet with sequence 5 leaves
`lost_packets = 5`, not 0 (and `expected_sequence = 6`). -/
theorem c2_counterexample :
    (recvStep initialRecvState 5 []).1.lost_packets ≠ 0 ∧
    (recvStep initialRecvState 5 []).1 = ⟨6, 5, 0⟩ := by decide

/-- Claim C3: from the initial receiver state, arrivals with sequence
numbers 0, 2, 1, 3 write exactly the payloads of packets 0, 2 and 3 to the
sink in that order, drop the payload of packet 1, and end with one lost
and one out-of-order packet counted. -/
theorem c3_reorder_scenario (p0 p1 p2 p3 : List Nat) :
    runRecv initialRecvState [(0, p0), (2, p2), (1, p1), (3, p3)] =
      (⟨4, 1, 1⟩, [p0, p2, p3]) := rfl

/-- Claim C4: in every receiver state, a data packet whose sequence number
is strictly below `expected_sequence` is never written to the sink; the
step only increments `out_of_order_packets` and leaves
`expected_sequence` and `lost_packets` unchanged. -/
theorem c4_late_packet_drop (s : RecvState) (seq : Nat)
    (payload : List Nat) (h : seq < s.expected_sequence) :
    recvStep s seq payload =
      ({ s with
          out_of_order_packets := (s.out_of_order_packets + 1) % 2 ^ 64 },
        none) := by
  unfold recvStep
  rw [if_neg (by omega), if_neg (by omega)]

/-- Witness for C4: sequence 1 against expected 3 is dropped. -/
theorem c4_late_packet_drop_witness :
    recvStep ⟨3, 0, 0⟩ 1 [] = (⟨3, 0, 1⟩, none) := by
  have h := c4_late_packet_drop ⟨3, 0, 0⟩ 1 [] (by decide)
  simpa using h

/-- Claim C5: two consecutive all-neutral chunks fed to a send worker with
`prev_silent = false` produce exactly two frames — the first carrying the
full chunk as payload, the second an empty payload — and the second frame
carries the `u64` successor of the first frame's sequence number. -/
theorem c5_silence_collapse (w : SendWorker) (c1 c2 : List Nat)
    (ts1 ts2 : Nat) (hprev : w.prev_silent = false)
    (h1 : is_silent_chunk w.packet_meta.sample_format c1 = true)
    (h2 : is_silent_chunk w.packet_meta.sample_format c2 = true) :
    (w.process_chunk c1 ts1).2 =
      encode_packet w.sequence_number c1 w.packet_meta ts1 ∧
    ((w.process_chunk c1 ts1).1.process_chunk c2 ts2).2 =
      encode_packet ((w.sequence_number + 1) % 2 ^ 64) [] w.packet_meta
        ts2 := by
  have ha1 := aligned_of_silent _ _ h1
  have ha2 := aligned_of_silent _ _ h2
  simp only [SendWorker.process_chunk, ha1, ha2, h1, h2, hprev,
    Bool.true_and, Bool.and_true, Bool.and_false, Bool.true_or,
    Bool.or_true, if_false, if_true]
  simp

/-- Witness for C5: two all-zero f32 chunks. -/
theorem c5_silence_collapse_witness :
    ((⟨⟨2, ⟨48000⟩, .F32⟩, 0, 0, false⟩ : SendWorker).process_chunk
        [0, 0, 0, 0] 7).2 =
      encode_packet 0 [0, 0, 0, 0] ⟨2, ⟨48000⟩, .F32⟩ 7 ∧
    (((⟨⟨2, ⟨48000⟩, .F32⟩, 0, 0, false⟩ : SendWorker).process_chunk
          [0, 0, 0, 0] 7).1.process_chunk [0, 0, 0, 0] 8).2 =
      encode_packet ((0 + 1) % 2 ^ 64) [] ⟨2, ⟨48000⟩, .F32⟩ 8 :=
  c5_silence_collapse ⟨⟨2, ⟨48000⟩, .F32⟩, 0, 0, false⟩ [0, 0, 0, 0]
    [0, 0, 0, 0] 7 8 rfl (by decide) (by decide)

/-- Claim C6 (amended): on buffers of at least 24 bytes with valid magic
and version, `decode_packet` fails with `LengthMismatch` exactly when the
declared payload length exceeds the bytes remaining after the header (a
declared length smaller than the remainder decodes successfully); and
truncating a valid encoded frame to at least 24 but fewer than
header-plus-declared-length bytes yields `LengthMismatch`. -/
theorem c6_length_mismatch :
    (∀ data : List Nat, 24 ≤ data.length →
      data.getD 0 0 = DATA_PACKET_MAGIC →
      data.getD 1 0 = PACKET_VERSION →
      (decode_packet data = .error .LengthMismatch ↔
        data.length - 24 < fromBE2 (data.getD 2 0) (data.getD 3 0))) ∧
    (∀ (seq ts : Nat) (payload : List Nat) (meta : Meta) (k : Nat),
      payload.length ≤ 65535 → 24 ≤ k → k < 24 + payload.length →
      decode_packet ((encode_packet seq payload meta ts).take k) =
        .error .LengthMismatch) :=
  ⟨fun data h24 hm hv => decode_length_mismatch_iff data h24 hm hv,
   fun seq ts payload meta k hlen h24 hk =>
     decode_truncated_frame seq ts payload meta k hlen h24 hk⟩

/-- Witness for C6: the iff on a concrete valid header with surplus bytes,
and a concrete truncated frame. -/
theorem c6_length_mismatch_witness :
    (decode_packet
        [0x53, 2, 0, 0, 1, 7, 1, 0, 0, 0, 0, 0, 0, 0, 0, 0,
         0, 0, 0, 0, 0, 0, 0, 0, 9, 9, 9, 9, 9] =
        .error .LengthMismatch ↔
      ([0x53, 2, 0, 0, 1, 7, 1, 0, 0, 0, 0, 0, 0, 0, 0, 0,
        0, 0, 0, 0, 0, 0, 0, 0, 9, 9, 9, 9, 9] : List Nat).length - 24 <
        fromBE2
          (([0x53, 2, 0, 0, 1, 7, 1, 0, 0, 0, 0, 0, 0, 0, 0, 0,
             0, 0, 0, 0, 0, 0, 0, 0, 9, 9, 9, 9, 9] : List Nat).getD 2 0)
          (([0x53, 2, 0, 0, 1, 7, 1, 0, 0, 0, 0, 0, 0, 0, 0, 0,
             0, 0, 0, 0, 0, 0, 0, 0, 9, 9, 9, 9, 9] : List Nat).getD 3
            0)) ∧
    decode_packet
        ((encode_packet 1 [97, 98, 99] ⟨1, ⟨44100⟩, .I16⟩ 0).take 25) =
      .error .LengthMismatch :=
  ⟨c6_length_mismatch.1 _ (by decide) (by decide) (by decide),
   c6_length_mismatch.2 1 0 [97, 98, 99] ⟨1, ⟨44100⟩, .I16⟩ 25 (by decide)
     (by decide) (by decide)⟩

/-- Counterexample to C6 as stated: a 29-byte buffer with a valid header
declaring payload length 0 decodes successfully even though the declared
length (0) differs from the 5 remaining bytes, refuting the
"if and only if the declared length does not equal the remainder"
direction. -/
theorem c6_counterexample :
    decode_packet
        [0x53, 2, 0, 0, 1, 7, 1, 0, 0, 0, 0, 0, 0, 0, 0, 0,
         0, 0, 0, 0, 0, 0, 0, 0, 9, 9, 9, 9, 9] =
      .ok ⟨0, 0, ⟨1, ⟨48000⟩, .F32⟩, []⟩ ∧
    ([0x53, 2, 0, 0, 1, 7, 1, 0, 0, 0, 0, 0, 0, 0, 0, 0,
      0, 0, 0, 0, 0, 0, 0, 0, 9, 9, 9, 9, 9] : List Nat).length - 24 ≠
      fromBE2 0 0 := by
  refine ⟨by decide, by decide⟩

/-- Claim C7: the decode multiplexer fails with `UnknownMagic` on the
empty buffer and on any first byte outside `{0x53, 0x54}`; a first byte
`0x53` dispatches to the data-frame decoder and `0x54` to the sync-frame
decoder, preserving each decoder's result. -/
theorem c7_multiplexer :
    decode_message [] = .error .UnknownMagic ∧
    (∀ (b : Nat) (rest : List Nat), b ≠ DATA_PACKET_MAGIC →
      b ≠ SYNC_PACKET_MAGIC →
      decode_message (b :: rest) = .error .UnknownMagic) ∧
    (∀ rest : List Nat,
      decode_message (DATA_PACKET_MAGIC :: rest) =
        match decode_packet (DATA_PACKET_MAGIC :: rest) with
        | .ok d => .ok (.Data d)
        | .error e => .error (.DataErr e)) ∧
    (∀ rest : List Nat,
      decode_message (SYNC_PACKET_MAGIC :: rest) =
        match decode_sync (SYNC_PACKET_MAGIC :: rest) with
        | .ok m => .ok (.Sync m)
        | .error e => .error (.SyncErr e)) := by
  refine ⟨rfl, ?_, ?_, ?_⟩
  · intro b rest hb hs
    simp [decode_message, hb, hs]
  · intro rest
    simp [decode_message]
  · intro rest
    simp [decode_message, DATA_PACKET_MAGIC, SYNC_PACKET_MAGIC]

/-- Witness for C7: first byte 0x55 is rejected with `UnknownMagic`. -/
theorem c7_multiplexer_witness :
    decode_message [0x55, 1, 2] = .error .UnknownMagic :=
  c7_multiplexer.2.1 0x55 [1, 2] (by decide) (by decide)

/-- Claim C8: the first update of a fresh estimator seeds
`offset_ms = ((t1 - t0) + (t2 - t3)) / 2` and
`delay_ms = max ((t3 - t0) - (t2 - t1)) 0` with no EWMA blending and
leaves the drift at zero; in particular `update 1000 1010 1010 1020`
yields offset 0 and delay 20. -/
theorem c8_first_update :
    (∀ (a b : ℚ) (t0 t1 t2 t3 : Nat),
      ((TimeSyncEstimator.new a b).update t0 t1 t2 t3).2.offset_ms =
          (((t1 : ℚ) - t0) + ((t2 : ℚ) - t3)) / 2 ∧
      ((TimeSyncEstimator.new a b).update t0 t1 t2 t3).2.delay_ms =
          max (((t3 : ℚ) - t0) - ((t2 : ℚ) - t1)) 0 ∧
      ((TimeSyncEstimator.new a b).update t0 t1 t2 t3).2.drift_ppm = 0) ∧
    ((TimeSyncEstimator.new (1 / 5) (1 / 5)).update 1000 1010 1010
        1020).2 =
      ⟨0, 20, 0⟩ := by
  constructor
  · intro a b t0 t1 t2 t3
    simp [TimeSyncEstimator.new, TimeSyncEstimator.update,
      TimeSyncState.default]
  · norm_num [TimeSyncEstimator.new, TimeSyncEstimator.update,
      TimeSyncState.default]

/-- Claim C9: a 10-second `RollingRate` fed one unit at each of the
instants 0 through 9 seconds reports a rate of exactly 1 per second when
read at 10 seconds, and all ten entries — including the one recorded
exactly one window-length before the read — survive eviction. -/
theorem c9_rolling_rate :
    ((List.foldl (fun r (t : ℚ) => r.record t 1) (RollingRate.new 10)
        [0, 1, 2, 3, 4, 5, 6, 7, 8, 9]).rate_per_sec 10).1 = 1 ∧
    ((List.foldl (fun r (t : ℚ) => r.record t 1) (RollingRate.new 10)
        [0, 1, 2, 3, 4, 5, 6, 7, 8,
          9]).rate_per_sec 10).2.history.length =
      10 := by
  norm_num [RollingRate.new, RollingRate.record, RollingRate.prune,
    RollingRate.pruneList, RollingRate.rate_per_sec, durationSince,
    satAdd64]

/-- Claim C10: a payload longer than 65535 bytes is encoded with 65535 in
the length field while the whole payload is appended, and decoding the
resulting frame succeeds, returning only the first 65535 payload bytes. -/
theorem c10_oversize_payload (seq ts : Nat) (payload : List Nat)
    (meta : Meta) (hseq : seq < 2 ^ 64) (hts : ts < 2 ^ 64)
    (h : 65535 < payload.length) :
    (encode_packet seq payload meta ts).length = 24 + payload.length ∧
    (encode_packet seq payload meta ts).getD 2 0 = 255 ∧
    (encode_packet seq payload meta ts).getD 3 0 = 255 ∧
    ∃ d, decode_packet (encode_packet seq payload meta ts) = .ok d ∧
      d.payload = payload.take 65535 := by
  have hmin : min payload.length 65535 = 65535 :=
    Nat.min_eq_right (Nat.le_of_lt h)
  refine ⟨?_, ?_, ?_,
    ⟨_, decode_encode_oversize seq ts payload meta hseq hts h, rfl⟩⟩
  · simp [encode_packet, toBE2, toBE8, hmin]
    omega
  · simp [encode_packet, toBE2, toBE8, hmin]
  · simp [encode_packet, toBE2, toBE8, hmin]

/-- Witness for C10: a 65536-byte all-zero payload. -/
theorem c10_oversize_payload_witness :
    (encode_packet 0 (List.replicate 65536 0) ⟨1, ⟨48000⟩, .F32⟩
        0).length =
      24 + (List.replicate 65536 (0 : Nat)).length ∧
    (encode_packet 0 (List.replicate 65536 0) ⟨1, ⟨48000⟩, .F32⟩ 0).getD 2
      0 = 255 ∧
    (encode_packet 0 (List.replicate 65536 0) ⟨1, ⟨48000⟩, .F32⟩ 0).getD 3
      0 = 255 ∧
    ∃ d, decode_packet
        (encode_packet 0 (List.replicate 65536 0) ⟨1, ⟨48000⟩, .F32⟩ 0) =
          .ok d ∧
      d.payload = (List.replicate 65536 (0 : Nat)).take 65535 :=
  c10_oversize_payload 0 0 (List.replicate 65536 0) ⟨1, ⟨48000⟩, .F32⟩
    (by decide) (by decide)
    (lt_of_lt_of_eq (by decide)
      (List.length_replicate 65536 (0 : Nat)).symm)
